import Mathlib

/-!
Verification development for `visualizar_tabela.py`, a single-file Streamlit
application that loads a parquet table from S3 (or a local upload), lets the
user edit it in a grid with a row-deletion confirmation gate, and saves the
result back to S3 (with a backup copy) or to a local path.

The script is embedded shallowly: each UI handler becomes a pure Lean
function from its inputs (the widget values and an oracle giving the
outcomes of the external storage calls) to the messages it displays and the
storage calls it issues, in order.  Pandas dataframes are modelled as lists
of rows of opaque cell values: the script only ever uses their length
(`len(df)`), value-level copying (`df.copy()`), and wholesale replacement.
-/

set_option autoImplicit false

namespace VisualizarTabela

/-- A cell value of the dataframe; the script never inspects cells, so an
opaque string suffices. -/
abbrev Value := String

/-- One row of the dataframe. -/
abbrev Row := List Value

/-- A pandas dataframe, modelled by its rows.  `len(df)` is `df.length`. -/
abbrev Table := List Row

/-- `df.copy()`: pandas produces a fresh object whose rows and cells are
value-equal to the original; at the level of `Table` (pure values) it is the
identity. -/
def dfCopy (df : Table) : Table := df

/-- Messages the script displays, with their payloads.  Each constructor
corresponds to one `st.success` / `st.error` / `st.info` call site in
`visualizar_tabela.py`. -/
inductive Msg where
  /-- `st.sidebar.success(f'Loaded from S3: s3://{bucket}/{key}')` -/
  | loadedFromS3 (uri : String)
  /-- `st.sidebar.success("File uploaded and loaded")` -/
  | fileUploaded
  /-- `st.sidebar.info("Please upload a file or use S3 file")` -/
  | pleaseUpload
  /-- `st.error(f"Error loading data: ...")` -/
  | errorLoading (e : String)
  /-- `st.success(f"Deleted ... row(s)")`, carrying the reported count. -/
  | deletedRows (n : Nat)
  /-- `st.error("Incorrect code. No rows were deleted.")` -/
  | incorrectCode
  /-- `st.success(f'Saved to S3: s3://{bucket}/{key}')` -/
  | savedToS3 (uri : String)
  /-- `st.info(f'Backup created at s3://{bucket}/{key}')`, carrying the URI
  the message interpolates. -/
  | backupCreatedAt (uri : String)
  /-- `st.error(f"Error saving to S3: ...")` -/
  | errorSavingS3 (e : String)
  /-- `st.success(f"Saved locally as {save_path}")` -/
  | savedLocally (path : String)
  /-- `st.error(f"Error saving locally: ...")` -/
  | errorSavingLocally (e : String)
  deriving DecidableEq, Repr

/-- `f's3://{bucket}/{key}'`, the URI format used by the messages. -/
def s3Uri (bucket key : String) : String :=
  "s3://" ++ bucket ++ "/" ++ key

/-- The widget values feeding one pass of `main_editor`: the edited table
returned by `st.data_editor` (or the `st.experimental_data_editor` fallback
in the `AttributeError` branch, identical for our purposes: both hand back
the user's edited copy of the grid), whether `st.button("Confirm Deletion")`
fired this pass, and the text in the `confirm_code` input. -/
structure EditorInput where
  grid : Table
  buttonPressed : Bool
  code : String
  deriving Repr

/-- What one pass of `main_editor` produces: the returned dataframe and the
messages displayed. -/
structure EditorResult where
  outcome : Table
  messages : List Msg
  deriving DecidableEq, Repr

/-- `main_editor(df)` from `visualizar_tabela.py`, lines 62-91: render the
grid; if the edited table has fewer rows than the input, show the code input
and, when the confirm button fires, either accept the reduction (code
`"125"`, success message with the deleted count) or revert to a full copy of
the original (any other code, error message).  In all other cases the edited
table is returned as-is with no message. -/
def main_editor (df : Table) (inp : EditorInput) : EditorResult :=
  let edited_df := inp.grid
  if edited_df.length < df.length then
    if inp.buttonPressed then
      if inp.code = "125" then
        { outcome := edited_df
          messages := [Msg.deletedRows (df.length - edited_df.length)] }
      else
        { outcome := dfCopy df, messages := [Msg.incorrectCode] }
    else
      { outcome := edited_df, messages := [] }
  else
    { outcome := edited_df, messages := [] }

/-- Storage calls issued against the S3 client, in program order.
`copyObject destBucket srcBucket srcKey destKey` is
`s3.copy_object(Bucket=destBucket, CopySource=(srcBucket, srcKey), Key=destKey)`;
`putObject bucket key` is the `s3.put_object` inside `write_to_s3`. -/
inductive S3Event where
  | copyObject (destBucket srcBucket srcKey destKey : String)
  | putObject (bucket key : String)
  deriving DecidableEq, Repr

/-- The runtime environment of one activation of the "Save to S3" handler:
how the global name `BUCKET_NAME` resolves (Python looks it up when the
`s3.copy_object` arguments are evaluated; `none` means the lookup raises
`NameError`), and the outcomes of the two storage calls, were they issued. -/
structure S3Env where
  bucketNameBinding : Option String
  copyResult : Except String Unit
  putResult : Except String Unit

/-- In `visualizar_tabela.py` the module binds `bucket` and `key` (from
`st.secrets`) but no assignment anywhere binds `BUCKET_NAME`, so its lookup
always raises `NameError`. -/
def moduleBucketNameBinding : Option String := none

/-- The Python error text raised at `Bucket=BUCKET_NAME` (line 107),
as rendered by `str(e)` in the except branch. -/
def nameErrorText : String := "name BUCKET_NAME is not defined"

/-- `backup_key` (line 105):
`f"backups/Controle_de_Processos_{datetime.now().strftime('%Y%m%d')}.parquet"`.
The base name `Controle_de_Processos` is a literal in the f-string; only the
date is interpolated.  `today` stands for `datetime.now().strftime('%Y%m%d')`,
re-evaluated inside the handler at each save. -/
def backup_key (today : String) : String :=
  "backups/Controle_de_Processos_" ++ today ++ ".parquet"

/-- Modelled from the spec: the backup-address format the spec claims,
`backups/<base-name>_<YYYYMMDD>.<ext>` derived from the primary key's base
name and extension.  This follows the spec's words (P5), for comparison with
`backup_key`, which is what the source computes. -/
def specBackupKey (baseName ext today : String) : String :=
  "backups/" ++ baseName ++ "_" ++ today ++ "." ++ ext

/-- What one activation of a save handler produces: the storage calls
issued (in order), the local file writes performed (path and table), and
the messages displayed. -/
structure SaveResult where
  events : List S3Event
  localWrites : List (String × Table)
  messages : List Msg
  deriving DecidableEq, Repr

/-- The "Save to S3" button handler (lines 102-117), with Python evaluation
order made explicit.  Inside the `try` block: compute `backup_key`; evaluate
the `s3.copy_object` arguments — resolving `BUCKET_NAME` first, which raises
`NameError` when unbound, before any storage call is made; issue the copy,
whose failure raises; then `write_to_s3(edited_df, bucket, key)` issues the
put, whose failure raises; on full success display the success and info
messages (both of which interpolate `{bucket}`/`{key}`, the primary
address).  The `except` branch turns any raise into `st.error`. -/
def saveToS3 (env : S3Env) (bucket key today : String) : SaveResult :=
  match env.bucketNameBinding with
  | none =>
    { events := [], localWrites := [], messages := [Msg.errorSavingS3 nameErrorText] }
  | some bn =>
    match env.copyResult with
    | Except.error e =>
      { events := [S3Event.copyObject bn bucket key (backup_key today)]
        localWrites := []
        messages := [Msg.errorSavingS3 e] }
    | Except.ok _ =>
      match env.putResult with
      | Except.error e =>
        { events := [S3Event.copyObject bn bucket key (backup_key today),
                     S3Event.putObject bucket key]
          localWrites := []
          messages := [Msg.errorSavingS3 e] }
      | Except.ok _ =>
        { events := [S3Event.copyObject bn bucket key (backup_key today),
                     S3Event.putObject bucket key]
          localWrites := []
          messages := [Msg.savedToS3 (s3Uri bucket key),
                       Msg.backupCreatedAt (s3Uri bucket key)] }

/-- The handler as it runs in the module itself, where `BUCKET_NAME` is
unbound (`moduleBucketNameBinding`). -/
def moduleSaveToS3 (copyResult putResult : Except String Unit)
    (bucket key today : String) : SaveResult :=
  saveToS3 ⟨moduleBucketNameBinding, copyResult, putResult⟩ bucket key today

/-- The "Save locally" button handler (lines 120-125):
`edited_df.to_parquet(save_path)` inside a `try`, success or error message.
`writeResult` is the outcome of the local filesystem write. -/
def saveLocally (edited_df : Table) (save_path : String)
    (writeResult : Except String Unit) : SaveResult :=
  match writeResult with
  | Except.ok _ =>
    { events := [], localWrites := [(save_path, edited_df)]
      messages := [Msg.savedLocally save_path] }
  | Except.error e =>
    { events := [], localWrites := [], messages := [Msg.errorSavingLocally e] }

/-- The sidebar load-mode radio: `"Use S3 file"` or `"Upload local file"`. -/
inductive LoadMode where
  | useS3
  | uploadLocal
  deriving DecidableEq, Repr

/-- Inputs to the load step of one pass: the chosen mode, the outcome of
`read_from_s3(bucket, key)` for this pass (a table, or the text of the
exception it raised — network, missing object or decode error), and the
state of the uploader (`none`: no file chosen yet; `some r`: a file whose
`pd.read_parquet` outcome is `r`). -/
structure LoadInput where
  mode : LoadMode
  readResult : Except String Table
  uploaded : Option (Except String Table)

/-- The load step (lines 44-58): the `try` block selects on the mode; any
exception is caught, displayed with `st.error`, and `st.stop()` halts the
pass, as does the no-file-yet informational branch.  Result: the loaded
table, or `none` when the pass halted, together with the messages shown. -/
def loadData (inp : LoadInput) (bucket key : String) : Option Table × List Msg :=
  match inp.mode with
  | LoadMode.useS3 =>
    match inp.readResult with
    | Except.ok df => (some df, [Msg.loadedFromS3 (s3Uri bucket key)])
    | Except.error e => (none, [Msg.errorLoading e])
  | LoadMode.uploadLocal =>
    match inp.uploaded with
    | none => (none, [Msg.pleaseUpload])
    | some (Except.ok df) => (some df, [Msg.fileUploaded])
    | some (Except.error e) => (none, [Msg.errorLoading e])

/-- The "Save to:" radio. -/
inductive SaveOption where
  | toS3
  | toLocal
  deriving DecidableEq, Repr

/-- All per-pass inputs of the script: the load inputs, the editor widget
values, the save destination, whether this pass's save button fired, the
local path text, the save-handler environment, today's date string, and the
local write outcome. -/
structure AppInput where
  load : LoadInput
  editor : EditorInput
  saveOption : SaveOption
  savePressed : Bool
  savePath : String
  env : S3Env
  today : String
  localWriteResult : Except String Unit

/-- What one full pass of the script does: the table the load step produced
(`none` when it halted), whether `main_editor` ran, the edit outcome handed
to the save section, the storage calls and local writes of the save step,
and every message displayed, in order. -/
structure AppResult where
  table : Option Table
  editorRan : Bool
  outcome : Option Table
  saveEvents : List S3Event
  localWrites : List (String × Table)
  messages : List Msg

/-- The save section of a pass (lines 99-125): on `"S3"` the remote handler
runs if its button fired; otherwise the local handler runs if its button
fired; an unfired button does nothing. -/
def saveStep (edited_df : Table) (bucket key : String) (inp : AppInput) : SaveResult :=
  match inp.saveOption with
  | SaveOption.toS3 =>
    if inp.savePressed then saveToS3 inp.env bucket key inp.today
    else { events := [], localWrites := [], messages := [] }
  | SaveOption.toLocal =>
    if inp.savePressed then saveLocally edited_df inp.savePath inp.localWriteResult
    else { events := [], localWrites := [], messages := [] }

/-- One top-to-bottom pass of the script: load; on halt (`st.stop()`)
nothing further runs; otherwise `main_editor`, then the save section on its
returned `edited_df`. -/
def runApp (bucket key : String) (inp : AppInput) : AppResult :=
  match loadData inp.load bucket key with
  | (none, msgs) =>
    { table := none, editorRan := false, outcome := none
      saveEvents := [], localWrites := [], messages := msgs }
  | (some df, msgs) =>
    let er := main_editor df inp.editor
    let sv := saveStep er.outcome bucket key inp
    { table := some df, editorRan := true, outcome := some er.outcome
      saveEvents := sv.events, localWrites := sv.localWrites
      messages := msgs ++ er.messages ++ sv.messages }

/-- `inp` with its save-call oracles replaced, every widget value kept. -/
def withSaveOracle (inp : AppInput) (env : S3Env)
    (writeResult : Except String Unit) : AppInput :=
  { inp with env := env, localWriteResult := writeResult }

/-! ### The `@st.cache_data` memo on `read_from_s3`, across a session

`read_from_s3` (lines 23-27) is decorated `@st.cache_data`, so Streamlit
memoizes its result keyed by the argument tuple `(bucket, key)`; the script
never calls any cache-clearing API, so within a session an entry, once
written, persists.  `write_to_s3` (lines 30-36) issues `s3.put_object`,
changing the stored object but touching no cache.  We model the session
state (memo plus object store) as association lists keyed by
`(bucket, key)`, the store lookups, and a session as a sequence of load and
save operations. -/

/-- A finite map keyed by `(bucket, key)`; the first matching entry wins. -/
abbrev SKMap := List ((String × String) × Table)

/-- First-match lookup in an `SKMap`. -/
def skLookup : SKMap → String → String → Option Table
  | [], _, _ => none
  | ((b, k), t) :: rest, b', k' =>
    if b = b' ∧ k = k' then some t else skLookup rest b' k'

/-- A session's cross-pass state: the `st.cache_data` memo for
`read_from_s3`, and the contents of the S3 object store. -/
structure S3Session where
  cache : SKMap
  storage : SKMap

/-- A `GET` actually sent to S3 (a cache miss); cache hits send nothing. -/
inductive ReadEvent where
  | getObject (bucket key : String)
  deriving DecidableEq, Repr

/-- `read_from_s3(bucket, key)` under `@st.cache_data`: on a memo hit the
cached table is returned and no storage read happens; on a miss the object
is fetched (one `getObject`), decoded, and the result memoized.  A missing
object yields no table (the raised error is handled by the caller's
`try`/`except`). -/
def read_from_s3 (s : S3Session) (bucket key : String) :
    Option Table × List ReadEvent × S3Session :=
  match skLookup s.cache bucket key with
  | some t => (some t, [], s)
  | none =>
    match skLookup s.storage bucket key with
    | some t =>
      (some t, [ReadEvent.getObject bucket key],
       { s with cache := ((bucket, key), t) :: s.cache })
    | none => (none, [ReadEvent.getObject bucket key], s)

/-- `write_to_s3(df, bucket, key)`: `s3.put_object` replaces the stored
object at `(bucket, key)`; the `st.cache_data` memo is not touched. -/
def write_to_s3 (s : S3Session) (df : Table) (bucket key : String) : S3Session :=
  { s with storage := ((bucket, key), df) :: s.storage }

/-- The storage-touching operations of successive passes in one session. -/
inductive SessionOp where
  | load (bucket key : String)
  | save (df : Table) (bucket key : String)

/-- Run a sequence of loads and saves, threading the session state. -/
def runOps : List SessionOp → S3Session → S3Session
  | [], s => s
  | SessionOp.load b k :: rest, s => runOps rest (read_from_s3 s b k).2.2
  | SessionOp.save df b k :: rest, s => runOps rest (write_to_s3 s df b k)

/-! ### Helper lemmas -/

/-- Unfolding lemma for `skLookup` on a non-empty map. -/
theorem skLookup_cons (b k b' k' : String) (t : Table) (rest : SKMap) :
    skLookup (((b, k), t) :: rest) b' k' =
      if b = b' ∧ k = k' then some t else skLookup rest b' k' := rfl

/-- A `read_from_s3` call never removes or changes an existing cache entry:
it only prepends an entry for a key that was not cached. -/
theorem read_from_s3_cache_mono (s : S3Session) (b' k' b k : String) (t : Table)
    (h : skLookup s.cache b k = some t) :
    skLookup (read_from_s3 s b' k').2.2.cache b k = some t := by
  unfold read_from_s3
  cases hc : skLookup s.cache b' k' with
  | some t' => exact h
  | none =>
    cases hs : skLookup s.storage b' k' with
    | some t' =>
      rw [skLookup_cons]
      by_cases he : b' = b ∧ k' = k
      · obtain ⟨hb, hk⟩ := he
        subst hb; subst hk
        rw [h] at hc
        exact absurd hc (by simp)
      · rw [if_neg he]; exact h
    | none => exact h

/-- `write_to_s3` touches only the storage, never the cache. -/
theorem write_to_s3_cache (s : S3Session) (df : Table) (b k : String) :
    (write_to_s3 s df b k).cache = s.cache := rfl

/-- No operation of a session ever removes or changes an existing cache
entry: the script has no cache invalidation call. -/
theorem runOps_cache_mono (ops : List SessionOp) (s : S3Session) (b k : String) (t : Table)
    (h : skLookup s.cache b k = some t) :
    skLookup (runOps ops s).cache b k = some t := by
  induction ops generalizing s with
  | nil => exact h
  | cons op rest ih =>
    cases op with
    | load b' k' => exact ih _ (read_from_s3_cache_mono s b' k' b k t h)
    | save df b' k' => exact ih _ h

/-- On a cache hit, `read_from_s3` returns the memoized table, issues no
storage read, and leaves the session unchanged. -/
theorem read_from_s3_hit (s : S3Session) (b k : String) (t : Table)
    (h : skLookup s.cache b k = some t) :
    read_from_s3 s b k = (some t, [], s) := by
  unfold read_from_s3
  rw [h]

/-- Running a concatenated session runs the two halves in order. -/
theorem runOps_append (ops₁ ops₂ : List SessionOp) (s : S3Session) :
    runOps (ops₁ ++ ops₂) s = runOps ops₂ (runOps ops₁ s) := by
  induction ops₁ generalizing s with
  | nil => rfl
  | cons op rest ih => cases op <;> simp [runOps, ih]

/-! ### Claims -/

/-- C1: for every remote save, the primary object at `(bucket, key)` is
never overwritten without the backup copy being made first: whenever the
handler's call trace contains the write to the primary address, the trace is
exactly a successful copy-to-backup call followed by that write; and if the
copy call fails, no write to the primary address is issued. -/
theorem saveToS3_backup_before_write (env : S3Env) (bucket key today : String) :
    (S3Event.putObject bucket key ∈ (saveToS3 env bucket key today).events →
      ∃ bn, env.bucketNameBinding = some bn ∧ env.copyResult = Except.ok () ∧
        (saveToS3 env bucket key today).events =
          [S3Event.copyObject bn bucket key (backup_key today),
           S3Event.putObject bucket key]) ∧
    (∀ e, env.copyResult = Except.error e →
      S3Event.putObject bucket key ∉ (saveToS3 env bucket key today).events) := by
  obtain ⟨bnb, cr, pr⟩ := env
  cases bnb with
  | none => cases cr <;> cases pr <;> simp [saveToS3]
  | some bn =>
    cases cr with
    | error e => cases pr <;> simp [saveToS3]
    | ok u => cases u; cases pr <;> simp [saveToS3]

/-- Witness for C1: with `BUCKET_NAME` bound and both calls succeeding, the
trace is copy-then-write; with the copy failing, no write is issued. -/
theorem saveToS3_backup_before_write_witness :
    (∃ bn, (S3Env.mk (some "B") (Except.ok ()) (Except.ok ())).bucketNameBinding = some bn ∧
        (S3Env.mk (some "B") (Except.ok ()) (Except.ok ())).copyResult = Except.ok () ∧
        (saveToS3 ⟨some "B", Except.ok (), Except.ok ()⟩ "b" "k.parquet" "20260101").events =
          [S3Event.copyObject bn "b" "k.parquet" (backup_key "20260101"),
           S3Event.putObject "b" "k.parquet"]) ∧
    S3Event.putObject "b" "k.parquet" ∉
      (saveToS3 ⟨some "B", Except.error "down", Except.ok ()⟩ "b" "k.parquet" "20260101").events :=
  ⟨(saveToS3_backup_before_write ⟨some "B", Except.ok (), Except.ok ()⟩
      "b" "k.parquet" "20260101").1 (by decide),
   (saveToS3_backup_before_write ⟨some "B", Except.error "down", Except.ok ()⟩
      "b" "k.parquet" "20260101").2 "down" rfl⟩

/-- C2: when the edited grid has fewer rows than the input table, the
confirm button fired, and the entered code is not `"125"`, `main_editor`
returns the original table (value-for-value, via `df.copy()`), discarding
the deletion and any cell edits of the pass, and displays the
incorrect-code error. -/
theorem main_editor_revert_on_wrong_code (df : Table) (inp : EditorInput)
    (hlt : inp.grid.length < df.length)
    (hbtn : inp.buttonPressed = true)
    (hcode : inp.code ≠ "125") :
    (main_editor df inp).outcome = df ∧
    (main_editor df inp).messages = [Msg.incorrectCode] := by
  simp [main_editor, dfCopy, hlt, hbtn, hcode]

/-- Witness for C2: deleting one of two rows and confirming with code
`"999"` yields the original two-row table back. -/
theorem main_editor_revert_on_wrong_code_witness :
    (main_editor [["a"], ["b"]] ⟨[["a"]], true, "999"⟩).outcome = [["a"], ["b"]] ∧
    (main_editor [["a"], ["b"]] ⟨[["a"]], true, "999"⟩).messages = [Msg.incorrectCode] :=
  main_editor_revert_on_wrong_code [["a"], ["b"]] ⟨[["a"]], true, "999"⟩
    (by decide) rfl (by decide)

/-- C3: when the edited grid has fewer rows than the input table, the
confirm button fired, and the entered code is exactly `"125"`, `main_editor`
returns the reduced table and reports a deleted-row count of `R - r`. -/
theorem main_editor_approve_on_code (df : Table) (inp : EditorInput)
    (hlt : inp.grid.length < df.length)
    (hbtn : inp.buttonPressed = true)
    (hcode : inp.code = "125") :
    (main_editor df inp).outcome = inp.grid ∧
    (main_editor df inp).messages =
      [Msg.deletedRows (df.length - inp.grid.length)] := by
  simp [main_editor, hlt, hbtn, hcode]

/-- Witness for C3: deleting one of three rows with code `"125"` keeps the
two-row table and reports one deleted row. -/
theorem main_editor_approve_on_code_witness :
    (main_editor [["a"], ["b"], ["c"]] ⟨[["a"], ["c"]], true, "125"⟩).outcome =
      [["a"], ["c"]] ∧
    (main_editor [["a"], ["b"], ["c"]] ⟨[["a"], ["c"]], true, "125"⟩).messages =
      [Msg.deletedRows 1] :=
  main_editor_approve_on_code [["a"], ["b"], ["c"]] ⟨[["a"], ["c"]], true, "125"⟩
    (by decide) rfl rfl

/-- C5: every activation of the "Save to S3" handler in the module itself —
where `BUCKET_NAME` is unbound — raises before any storage call: whatever
the storage oracles would answer, the trace is empty (no copy, no write) and
the only output is the `NameError` save-error message. -/
theorem moduleSaveToS3_always_errors (copyResult putResult : Except String Unit)
    (bucket key today : String) :
    moduleSaveToS3 copyResult putResult bucket key today =
      { events := [], localWrites := [],
        messages := [Msg.errorSavingS3 nameErrorText] } := rfl

/-- C4: when the edited grid has fewer rows than the input table but the
confirm button did not fire this pass, `main_editor` returns the reduced
table unchanged, and the pipeline hands exactly that unconfirmed reduction
to the save section, which can persist it (here: a local save succeeds and
writes the reduced table) with no confirmation code ever matched. -/
theorem main_editor_unconfirmed_deletion_passes_through (df : Table) (inp : EditorInput)
    (hlt : inp.grid.length < df.length)
    (hbtn : inp.buttonPressed = false) :
    (main_editor df inp).outcome = inp.grid ∧
    ∀ (bucket key path today : String) (env : S3Env),
      (runApp bucket key
        { load := ⟨LoadMode.useS3, Except.ok df, none⟩
          editor := inp
          saveOption := SaveOption.toLocal
          savePressed := true
          savePath := path
          env := env
          today := today
          localWriteResult := Except.ok () }).localWrites = [(path, inp.grid)] := by
  constructor
  · simp [main_editor, hlt, hbtn]
  · intro bucket key path today env
    simp [runApp, loadData, saveStep, saveLocally, main_editor, hlt, hbtn]

/-- Witness for C4: an unconfirmed deletion of one of two rows is returned
as-is and a local save persists the one-row table. -/
theorem main_editor_unconfirmed_deletion_passes_through_witness :
    (main_editor [["a"], ["b"]] ⟨[["b"]], false, ""⟩).outcome = [["b"]] ∧
    (runApp "B" "k.parquet"
      { load := ⟨LoadMode.useS3, Except.ok [["a"], ["b"]], none⟩
        editor := ⟨[["b"]], false, ""⟩
        saveOption := SaveOption.toLocal
        savePressed := true
        savePath := "out.parquet"
        env := ⟨none, Except.ok (), Except.ok ()⟩
        today := "20260101"
        localWriteResult := Except.ok () }).localWrites = [("out.parquet", [["b"]])] :=
  ⟨(main_editor_unconfirmed_deletion_passes_through [["a"], ["b"]] ⟨[["b"]], false, ""⟩
      (by decide) rfl).1,
   (main_editor_unconfirmed_deletion_passes_through [["a"], ["b"]] ⟨[["b"]], false, ""⟩
      (by decide) rfl).2 "B" "k.parquet" "out.parquet" "20260101"
      ⟨none, Except.ok (), Except.ok ()⟩⟩

/-- C6 counterexample: the claim says the backup address is computed from
the primary key's base name.  With primary key `"clients.parquet"` the
handler's copy call targets `backups/Controle_de_Processos_20260101.parquet`
— the base name is a hardcoded literal — which differs from the claimed
`backups/clients_20260101.parquet`. -/
theorem backup_key_not_derived_from_primary_key :
    (saveToS3 ⟨some "B", Except.ok (), Except.ok ()⟩
        "B" "clients.parquet" "20260101").events.head? =
      some (S3Event.copyObject "B" "B" "clients.parquet"
        "backups/Controle_de_Processos_20260101.parquet") ∧
    backup_key "20260101" ≠ specBackupKey "clients" "parquet" "20260101" := by
  exact ⟨rfl, by decide⟩

/-- C6 amended: for every save, the backup destination of the copy call is
`backups/Controle_de_Processos_<YYYYMMDD>.parquet` — deterministic given the
current date, recomputed from the date of each save, and identical for every
primary key (the base name is hardcoded, not derived from the key). -/
theorem saveToS3_backup_dest_fixed_base (env : S3Env) (bn bucket key key' today : String)
    (h : env.bucketNameBinding = some bn) :
    (saveToS3 env bucket key today).events.head? =
      some (S3Event.copyObject bn bucket key
        ("backups/Controle_de_Processos_" ++ today ++ ".parquet")) ∧
    backup_key today = "backups/Controle_de_Processos_" ++ today ++ ".parquet" ∧
    (saveToS3 env bucket key' today).events.head? =
      some (S3Event.copyObject bn bucket key'
        ("backups/Controle_de_Processos_" ++ today ++ ".parquet")) := by
  obtain ⟨bnb, cr, pr⟩ := env
  cases bnb with
  | none => exact absurd h (by simp)
  | some bn' =>
    obtain rfl : bn' = bn := by simpa using h
    refine ⟨?_, rfl, ?_⟩ <;> cases cr <;> cases pr <;> simp [saveToS3, backup_key]

/-- Witness for C6's amended claim: two different primary keys on the same
day target the same backup destination. -/
theorem saveToS3_backup_dest_fixed_base_witness :
    (saveToS3 ⟨some "B", Except.ok (), Except.ok ()⟩ "B" "a.parquet" "20260102").events.head? =
      some (S3Event.copyObject "B" "B" "a.parquet"
        ("backups/Controle_de_Processos_" ++ "20260102" ++ ".parquet")) ∧
    backup_key "20260102" = "backups/Controle_de_Processos_" ++ "20260102" ++ ".parquet" ∧
    (saveToS3 ⟨some "B", Except.ok (), Except.ok ()⟩ "B" "b.parquet" "20260102").events.head? =
      some (S3Event.copyObject "B" "B" "b.parquet"
        ("backups/Controle_de_Processos_" ++ "20260102" ++ ".parquet")) :=
  saveToS3_backup_dest_fixed_base ⟨some "B", Except.ok (), Except.ok ()⟩
    "B" "B" "a.parquet" "b.parquet" "20260102" rfl

/-- C7: on the success path, both messages interpolate the primary address
`s3://{bucket}/{key}`: the `st.info` line reads "Backup created at" but
names the primary address, which differs from the backup address the copy
call actually used.  Evaluated at bucket `controle-de-processos`, key
`Controle_de_Processos.parquet`, date `20260101`. -/
theorem saveToS3_info_message_names_primary_not_backup :
    (saveToS3 ⟨some "controle-de-processos", Except.ok (), Except.ok ()⟩
        "controle-de-processos" "Controle_de_Processos.parquet" "20260101").messages =
      [Msg.savedToS3 "s3://controle-de-processos/Controle_de_Processos.parquet",
       Msg.backupCreatedAt "s3://controle-de-processos/Controle_de_Processos.parquet"] ∧
    "s3://controle-de-processos/Controle_de_Processos.parquet" ≠
      s3Uri "controle-de-processos" (backup_key "20260101") := by
  exact ⟨rfl, by decide⟩

/-- C8: any load failure of a pass — a remote read raising, or an uploaded
file failing to decode — is caught, reported as the single error message,
and halts the pass: no table is produced, `main_editor` does not run, and
the save section issues no storage call, no local write and no message. -/
theorem load_failure_halts (bucket key : String) (inp : AppInput) (e : String)
    (h : (inp.load.mode = LoadMode.useS3 ∧ inp.load.readResult = Except.error e) ∨
         (inp.load.mode = LoadMode.uploadLocal ∧
           inp.load.uploaded = some (Except.error e))) :
    runApp bucket key inp =
      { table := none, editorRan := false, outcome := none
        saveEvents := [], localWrites := []
        messages := [Msg.errorLoading e] } := by
  obtain ⟨hm, hr⟩ | ⟨hm, hr⟩ := h <;> simp [runApp, loadData, hm, hr]

/-- Witness for C8: a remote read failure leaves only the error message and
runs nothing downstream. -/
theorem load_failure_halts_witness :
    runApp "B" "k.parquet"
      { load := ⟨LoadMode.useS3, Except.error "NoSuchKey", none⟩
        editor := ⟨[], false, ""⟩
        saveOption := SaveOption.toS3
        savePressed := true
        savePath := "out.parquet"
        env := ⟨none, Except.ok (), Except.ok ()⟩
        today := "20260101"
        localWriteResult := Except.ok () } =
      { table := none, editorRan := false, outcome := none
        saveEvents := [], localWrites := []
        messages := [Msg.errorLoading "NoSuchKey"] } :=
  load_failure_halts "B" "k.parquet"
    { load := ⟨LoadMode.useS3, Except.error "NoSuchKey", none⟩
      editor := ⟨[], false, ""⟩
      saveOption := SaveOption.toS3
      savePressed := true
      savePath := "out.parquet"
      env := ⟨none, Except.ok (), Except.ok ()⟩
      today := "20260101"
      localWriteResult := Except.ok () } "NoSuchKey" (Or.inl ⟨rfl, rfl⟩)

/-- C9: the save dispatcher is total over every oracle outcome — each
handler ends in either its success messages or a caught-error message,
never an uncaught raise — and the edit outcome handed to it is independent
of the save oracles, so after any save failure the in-memory edited table is
unchanged and the save can be retried. -/
theorem save_dispatcher_total_and_retains_table :
    (∀ (env : S3Env) (bucket key today : String),
      (saveToS3 env bucket key today).messages =
          [Msg.savedToS3 (s3Uri bucket key), Msg.backupCreatedAt (s3Uri bucket key)] ∨
        ∃ e, (saveToS3 env bucket key today).messages = [Msg.errorSavingS3 e]) ∧
    (∀ (df : Table) (path : String) (wr : Except String Unit),
      (saveLocally df path wr).messages = [Msg.savedLocally path] ∨
        ∃ e, (saveLocally df path wr).messages = [Msg.errorSavingLocally e]) ∧
    (∀ (bucket key : String) (inp : AppInput) (env : S3Env)
        (wr : Except String Unit),
      (runApp bucket key (withSaveOracle inp env wr)).outcome =
        (runApp bucket key inp).outcome) := by
  refine ⟨?_, ?_, ?_⟩
  · intro env bucket key today
    obtain ⟨bnb, cr, pr⟩ := env
    cases bnb with
    | none => exact Or.inr ⟨nameErrorText, rfl⟩
    | some bn =>
      cases cr with
      | error e => exact Or.inr ⟨e, rfl⟩
      | ok u =>
        cases u
        cases pr with
        | error e => exact Or.inr ⟨e, rfl⟩
        | ok u' => cases u'; exact Or.inl rfl
  · intro df path wr
    cases wr with
    | error e => exact Or.inr ⟨e, rfl⟩
    | ok u => cases u; exact Or.inl rfl
  · intro bucket key inp env wr
    have hload :
        loadData (withSaveOracle inp env wr).load bucket key =
          loadData inp.load bucket key := rfl
    rw [runApp, runApp, hload]
    cases hl : loadData inp.load bucket key with
    | mk o msgs => cases o <;> rfl

/-- C10: a successful remote read is memoized keyed by `(bucket, key)`: the
first call fetches the object once and caches the table; thereafter, across
any sequence of loads and saves in the session, the cache entry survives
(never invalidated), every repeated load of the same `(bucket, key)` returns
the first-read table without issuing a storage read, and this holds even
after a save has overwritten the stored object with a different table — the
stale first-read table is still returned. -/
theorem read_from_s3_memoized_never_invalidated
    (s : S3Session) (bucket key : String) (t : Table) (ops : List SessionOp)
    (hmiss : skLookup s.cache bucket key = none)
    (hstore : skLookup s.storage bucket key = some t) :
    read_from_s3 s bucket key =
      (some t, [ReadEvent.getObject bucket key],
        { s with cache := ((bucket, key), t) :: s.cache }) ∧
    read_from_s3 (runOps ops (read_from_s3 s bucket key).2.2) bucket key =
      (some t, [], runOps ops (read_from_s3 s bucket key).2.2) ∧
    ∀ df' : Table,
      skLookup (runOps (ops ++ [SessionOp.save df' bucket key])
          (read_from_s3 s bucket key).2.2).storage bucket key = some df' ∧
      read_from_s3 (runOps (ops ++ [SessionOp.save df' bucket key])
          (read_from_s3 s bucket key).2.2) bucket key =
        (some t, [],
          runOps (ops ++ [SessionOp.save df' bucket key])
            (read_from_s3 s bucket key).2.2) := by
  have hfirst : read_from_s3 s bucket key =
      (some t, [ReadEvent.getObject bucket key],
        { s with cache := ((bucket, key), t) :: s.cache }) := by
    unfold read_from_s3
    rw [hmiss, hstore]
  have hcached : skLookup (read_from_s3 s bucket key).2.2.cache bucket key = some t := by
    rw [hfirst, skLookup_cons]
    simp
  refine ⟨hfirst, ?_, ?_⟩
  · exact read_from_s3_hit _ bucket key t
      (runOps_cache_mono ops _ bucket key t hcached)
  · intro df'
    constructor
    · rw [runOps_append]
      show skLookup (write_to_s3 _ df' bucket key).storage bucket key = some df'
      rw [write_to_s3, skLookup_cons]
      simp
    · exact read_from_s3_hit _ bucket key t
        (runOps_cache_mono _ _ bucket key t hcached)

/-- Witness for C10: after the first read caches the one-row table and a
save overwrites the object with a different table, a repeated load still
returns the first-read table with no storage read. -/
theorem read_from_s3_memoized_never_invalidated_witness :
    read_from_s3
        (runOps ([] ++ [SessionOp.save [["v2"]] "B" "k"])
          (read_from_s3 ⟨[], [(("B", "k"), [["v1"]])]⟩ "B" "k").2.2) "B" "k" =
      (some [["v1"]], [],
        runOps ([] ++ [SessionOp.save [["v2"]] "B" "k"])
          (read_from_s3 ⟨[], [(("B", "k"), [["v1"]])]⟩ "B" "k").2.2) :=
  ((read_from_s3_memoized_never_invalidated ⟨[], [(("B", "k"), [["v1"]])]⟩
      "B" "k" [["v1"]] [] rfl (by decide)).2.2 [["v2"]]).2

end VisualizarTabela
